import Mathlib

/-
Verification development for demos/gce_demo.py (libcloud GCE demo script).

The script is straight-line orchestration code.  We shallowly embed the parts
the claims are about:
  * module-level constants (lines 67-94),
  * Python name resolution for the module's global namespace (imports and
    top-level definitions), which decides whether an identifier reference
    raises NameError,
  * `display` (lines 123-143),
  * `clean_up` (lines 146-189), with resource `destroy()` outcomes made
    explicit on the resource objects,
  * the function-definition sequence of the module (two `def main_compute`
    and one `def main_load_balancer`), where a later `def` rebinds the name,
  * the `__main__` block (lines 551-557),
  * `main_load_balancer` (lines 405-540) as a trace of driver operations,
  * driver acquisition (lines 97-121),
  * module initialisation of `kwargs` (lines 89-94) over an explicit heap,
  * the secrets import guard (lines 44-53).

Exceptions are values of `PyExc`; a function that can raise returns its
printed lines together with an `Option PyExc`.
-/

namespace GCEDemo

/-- Python exceptions relevant to the script: `ResourceNotFoundError`
(imported from libcloud.common.google), `NameError` for an unresolvable
identifier, and any other exception type by name. -/
inductive PyExc where
  | resourceNotFound
  | nameError (ident : String)
  | other (typeName : String)
deriving DecidableEq, Repr

/-- Python's `str.startswith(p)`: `p` is a prefix of `s`.  (Stated on the
character lists so that it evaluates by kernel reduction.) -/
def pyStartsWith (s p : String) : Bool :=
  p.data.isPrefixOf s.data

/-! ### Module-level constants (lines 67-94) -/

/-- Line 68-72: `WHICH_TESTS = {'compute': True, 'load-balancer': True, 'dns': True}`. -/
def WHICH_TESTS : List (String × Bool) :=
  [("compute", true), ("load-balancer", true), ("dns", true)]

/-- Line 75: `MAX_NODES = 5`. -/
def MAX_NODES : Nat := 5

/-- Line 79: `DEMO_BASE_NAME = 'lct'`. -/
def DEMO_BASE_NAME : String := "lct"

/-- Line 82: `DATACENTER = 'us-central1-f'`. -/
def DATACENTER : String := "us-central1-f"

/-- Line 87: `CLEANUP = True`. -/
def CLEANUP : Bool := true

/-- The names bound in the module's global namespace once the module body has
run: `import os.path` binds `os`, `import sys` binds `sys`, `import secrets`
binds `secrets` (lines 41-45), the `from ... import ...` statements
(lines 59-65) bind the imported names, and the top-level assignments and
`def`s bind the rest.  Note that `time`, `url_req` and `PY3` are never
imported, and no name `WHAT_TESTS` or `main_dns` is ever bound. -/
def moduleGlobalNames : List String :=
  ["os", "sys", "secrets",
   "Provider", "get_driver", "ResourceNotFoundError",
   "Provider_lb", "get_driver_lb", "Provider_dns", "get_driver_dns",
   "WHICH_TESTS", "MAX_NODES", "DEMO_BASE_NAME", "DATACENTER", "CLEANUP",
   "args", "kwargs",
   "get_gce_driver", "get_gcelb_driver", "get_dns_driver",
   "display", "clean_up", "main_compute", "main_load_balancer"]

/-! ### Resources and nodes

The script only reads `.name` (and, in error messages, the class name) of the
opaque resource handles, and invokes `.destroy()` on them.  What `destroy()`
does is external; we record its outcome on the resource object: `none` means
the call returns normally, `some e` means it raises `e`. -/

structure Resource where
  name : String
  className : String
  destroyBehavior : Option PyExc
deriving DecidableEq, Repr

/-- A node handle: `clean_up` passes prefixed nodes to
`ex_destroy_multiple_nodes`, whose returned result list has one boolean per
node; `destroySucceeds` records that boolean. -/
structure Node where
  name : String
  destroySucceeds : Bool
deriving DecidableEq, Repr

/-! ### `display` (lines 123-143) -/

/-- The local names in scope inside `display`'s body: its three parameters and
the loop variable `item`. -/
def displayLocalNames : List String :=
  ["title", "resource_list", "use_prefix", "item"]

/-- The identifier the expression on line 141 actually reads:
`use_preifx and '=> ' or '  '` (note the spelling). -/
def displayMarkerIdent : String := "use_preifx"

/-- Python name resolution inside `display`: locals first, then the module
globals. -/
def resolvesInDisplay (ident : String) : Bool :=
  displayLocalNames.contains ident || moduleGlobalNames.contains ident

/-- The loop of lines 139-143 over `resource_list[:10]`.  For an item whose
name starts with `DEMO_BASE_NAME`, line 141 evaluates the identifier
`use_preifx`; if it does not resolve, Python raises `NameError` there.
Returns the lines printed before any raise, and the raised exception if any. -/
def displayLoop : List Resource → List String × Option PyExc
  | [] => ([], none)
  | item :: rest =>
    if pyStartsWith item.name DEMO_BASE_NAME then
      if resolvesInDisplay displayMarkerIdent then
        -- dead branch with the source's spelling; line 141's print shape
        let t := displayLoop rest
        (("=>    " ++ item.name) :: t.1, t.2)
      else
        ([], some (.nameError displayMarkerIdent))
    else
      let t := displayLoop rest
      (("        " ++ item.name) :: t.1, t.2)

/-- `display(title, resource_list=[], use_prefix=True)`, lines 123-143.
Line 138 prints the title line; lines 139-143 loop over the first ten items.
In Python the defaults are `resource_list=[]` and `use_prefix=True`; callers
here always pass all three arguments. -/
def display (title : String) (resource_list : List Resource)
    ( use_prefix : Bool) : List String × Option PyExc :=
  let head := (if use_prefix then "=> " else "") ++ title ++ ":"
  let t := displayLoop (resource_list.take 10)
  (head :: t.1, t.2)

/-- A call `display(t)` with the defaults (empty list, `use_prefix=True`):
it prints exactly the title line and cannot raise.  `clean_up` only calls
`display` in this form. -/
def displayTitleOnly (title : String) : List String :=
  (display title [] true).1

/-! ### `clean_up` (lines 146-189) -/

/-- Lines 171-175: the message printed for entry `i` of the result of
`ex_destroy_multiple_nodes`, via `display(...)`. -/
def nodeResultLines (n : Node) : List String :=
  if n.destroySucceeds then
    displayTitleOnly ("   Deleted " ++ n.name)
  else
    displayTitleOnly ("   Failed to delete " ++ n.name)

/-- Lines 178-189: the loop over `resource_list`.  For a resource whose name
starts with `base_name`, `resource.destroy()` is invoked; a raised
`ResourceNotFoundError` is caught by line 182 and reported (lines 183-184);
any other exception is caught by the bare `except:` on line 185, reported
(lines 186-188) and re-raised (line 189), which stops the loop.
Returns (resources on which `destroy()` was invoked, printed lines,
propagated exception). -/
def cleanUpResources (base_name : String) :
    List Resource → List Resource × List String × Option PyExc
  | [] => ([], [], none)
  | resource :: rest =>
    if pyStartsWith resource.name base_name then
      match resource.destroyBehavior with
      | none =>
        let t := cleanUpResources base_name rest
        (resource :: t.1, t.2.1, t.2.2)
      | some .resourceNotFound =>
        let t := cleanUpResources base_name rest
        (resource :: t.1,
         displayTitleOnly
           ("   Not found: " ++ resource.name ++ "(" ++ resource.className ++ ")")
           ++ t.2.1,
         t.2.2)
      | some exc =>
        (resource :: [],
         displayTitleOnly
           ("   Failed to Delete " ++ resource.name ++ "(" ++ resource.className ++ ")"),
         some exc)
    else
      cleanUpResources base_name rest

/-- The observable outcome of a `clean_up` call. -/
structure CleanUpResult where
  /-- the `del_nodes` list passed to `gce.ex_destroy_multiple_nodes` -/
  nodesRequested : List Node
  /-- the resources on which `.destroy()` was invoked -/
  destroyCalls : List Resource
  /-- lines printed -/
  printed : List String
  /-- exception propagated out of `clean_up`, if any -/
  raised : Option PyExc
deriving DecidableEq, Repr

/-- `clean_up(gce, base_name, node_list=None, resource_list=None)`,
lines 146-189.  `None` defaults become empty lists (lines 160-163);
lines 165-168 collect the nodes whose name starts with `base_name` into
`del_nodes`; line 170 destroys them in one call; lines 171-175 report each
outcome; lines 178-189 run the resource loop. -/
def clean_up (base_name : String) (node_list : Option (List Node))
    (resource_list : Option (List Resource)) : CleanUpResult :=
  let nodes := node_list.getD []
  let resources := resource_list.getD []
  let del_nodes := nodes.filter (fun n => pyStartsWith n.name base_name)
  let nodeLines := (del_nodes.map nodeResultLines).flatten
  let t := cleanUpResources base_name resources
  ⟨del_nodes, t.1, nodeLines ++ t.2.1, t.2.2⟩

/-! ### Module function definitions and the entry point (lines 193-557)

A Python `def` rebinds the function name in the module namespace; a later
`def` with the same name shadows an earlier one.  The module contains, in
order: `def main_compute` (line 193, the compute lifecycle),
`def main_load_balancer` (line 405), and a second `def main_compute`
(line 544) whose body only builds the DNS driver and prints the project name
(despite the section comment `==== GOOGLE DNS CODE STARTS HERE ====`). -/

/-- What a scenario procedure body does. -/
inductive ProcBody where
  | computeLifecycle
  | loadBalancerLifecycle
  | dnsProjectLookup
deriving DecidableEq, Repr

/-- The module's `def` statements in source order (name, body). -/
def moduleFunctionDefs : List (String × ProcBody) :=
  [("main_compute", .computeLifecycle),        -- line 193
   ("main_load_balancer", .loadBalancerLifecycle),  -- line 405
   ("main_compute", .dnsProjectLookup)]        -- line 544

/-- Looking a function name up in the module namespace after the module body
has run: the last `def` for that name wins. -/
def lookupFunction (n : String) : Option ProcBody :=
  ((moduleFunctionDefs.filter (fun p => p.1 == n)).getLast?).map (fun p => p.2)

/-- Python dict lookup for the `WHICH_TESTS`-shaped dicts. -/
def lookupDictBool (d : List (String × Bool)) (k : String) : Option Bool :=
  (d.find? (fun p => p.1 == k)).map (fun p => p.2)

/-- The identifier the `__main__` block reads on line 552:
`if WHAT_TESTS['compute']:`. -/
def mainGateIdent : String := "WHAT_TESTS"

/-- The `__main__` block, lines 551-557 (lines 554-557 are commented out).
Line 552 evaluates the identifier `WHAT_TESTS`; if it does not resolve in the
module globals, Python raises `NameError` before any subscript or call.  If it
did resolve, the gate would consult the bound mapping (the module only binds
`WHICH_TESTS`) and, on `True`, call whatever `main_compute` denotes.  Returns
the procedure body invoked, if any. -/
def runMainBlock : Except PyExc (Option ProcBody) :=
  if moduleGlobalNames.contains mainGateIdent then
    match lookupDictBool WHICH_TESTS "compute" with
    | some true => .ok (lookupFunction "main_compute")
    | _ => .ok none
  else
    .error (.nameError mainGateIdent)

/-! ### `main_load_balancer` (lines 405-540) as an operation trace

Every statement either calls a driver operation (modelled as succeeding, per
the claim's premise that all external calls succeed) or first resolves a
Python identifier that may not be bound.  Execution stops at the first raised
exception. -/

/-- Labels for the driver operations `main_load_balancer` invokes. -/
inductive LBOp where
  | listBalancers
  | listProtocols
  | exListHealthchecks
  | listNodesAllZones
  | exListFirewalls
  | cleanUpCall
  | exGetImage
  | exGetSize
  | exCreateMultipleNodes
  | exCreateFirewall
  | exCreateHealthcheck
  | createBalancer
  | attachComputeNode
  | listMembers
  | detachMember
  | attachMember
  | timeSleep
  | urlOpen
deriving DecidableEq, Repr

/-- A statement of `main_load_balancer`: either a plain driver call, or an
operation whose receiver is a module-level identifier that must resolve
first (`time.sleep`, `url_req.urlopen`). -/
inductive LBStep where
  | driverCall (op : LBOp)
  | namedCall (ident : String) (op : LBOp)
deriving DecidableEq, Repr

/-- The statements of `main_load_balancer` in source order:
line 410 `gcelb.list_balancers()`, line 414 `list_protocols()`,
line 418 `ex_list_healthchecks()`, line 425 `gce.list_nodes(ex_zone='all')`,
line 426 `ex_list_firewalls()`, line 428 `clean_up(...)`,
line 437 `ex_get_image`, line 438 `ex_get_size`,
line 442 `ex_create_multiple_nodes` (3 nodes), line 453 `ex_create_firewall`,
line 462 `ex_create_healthcheck`, line 476 `create_balancer` (first two
nodes), line 482 `attach_compute_node` (third node), line 486 `list_members`,
line 494 `detach_member`, line 499 `list_members`, line 506 `attach_member`,
line 511 `time.sleep(10)`, lines 516-529 the 200-round probe loop calling
`url_req.urlopen`, lines 532-540 the conditional final cleanup. -/
def lbStatements : List LBStep :=
  [.driverCall .listBalancers,
   .driverCall .listProtocols,
   .driverCall .exListHealthchecks,
   .driverCall .listNodesAllZones,
   .driverCall .exListFirewalls,
   .driverCall .cleanUpCall,
   .driverCall .exGetImage,
   .driverCall .exGetSize,
   .driverCall .exCreateMultipleNodes,
   .driverCall .exCreateFirewall,
   .driverCall .exCreateHealthcheck,
   .driverCall .createBalancer,
   .driverCall .attachComputeNode,
   .driverCall .listMembers,
   .driverCall .detachMember,
   .driverCall .listMembers,
   .driverCall .attachMember,
   .namedCall "time" .timeSleep]
  ++ List.replicate 200 (.namedCall "url_req" .urlOpen)
  ++ (if CLEANUP then
       [.driverCall .listBalancers,
        .driverCall .exListHealthchecks,
        .driverCall .listNodesAllZones,
        .driverCall .exListFirewalls,
        .driverCall .cleanUpCall]
      else [])

/-- Run a statement list: driver calls succeed and are recorded; a named call
whose identifier does not resolve in the module globals raises `NameError`
and aborts.  Returns the operations performed and the exception, if any. -/
def runLBSteps : List LBStep → List LBOp × Option PyExc
  | [] => ([], none)
  | .driverCall op :: rest =>
    let t := runLBSteps rest
    (op :: t.1, t.2)
  | .namedCall ident op :: rest =>
    if moduleGlobalNames.contains ident then
      let t := runLBSteps rest
      (op :: t.1, t.2)
    else
      ([], some (.nameError ident))

/-- `main_load_balancer()` under the assumption that every external driver
call succeeds. -/
def main_load_balancer : List LBOp × Option PyExc :=
  runLBSteps lbStatements

/-! ### Driver acquisition (lines 97-121) -/

/-- A constructed compute driver: `get_driver(Provider.GCE)(*args, **kwargs)`
packages the looked-up provider class with the injected credentials. -/
structure ComputeDriver where
  args : List String
  kwargs : List (String × String)
deriving DecidableEq, Repr

/-- How a load-balancer or DNS driver was constructed: from a supplied
compute driver, or from the stored credentials. -/
inductive DriverSource where
  | fromComputeDriver (d : ComputeDriver)
  | fromCreds (args : List String) (kwargs : List (String × String))
deriving DecidableEq, Repr

/-- `get_gce_driver()`, lines 97-99: always constructs the compute driver
from the module's stored `args`/`kwargs`. -/
def get_gce_driver (args : List String) (kwargs : List (String × String)) :
    ComputeDriver :=
  ⟨args, kwargs⟩

/-- `get_gcelb_driver(gce_driver=None)`, lines 101-110: `if gce_driver:`
(a driver object is truthy, `None` is falsy) passes it through, else the
stored credentials are injected. -/
def get_gcelb_driver (args : List String) (kwargs : List (String × String))
    (gce_driver : Option ComputeDriver) : DriverSource :=
  match gce_driver with
  | some d => .fromComputeDriver d
  | none => .fromCreds args kwargs

/-- `get_dns_driver(gce_driver=None)`, lines 112-121: same pattern. -/
def get_dns_driver (args : List String) (kwargs : List (String × String))
    (gce_driver : Option ComputeDriver) : DriverSource :=
  match gce_driver with
  | some d => .fromComputeDriver d
  | none => .fromCreds args kwargs

/-! ### Module initialisation of `kwargs` (lines 89-94)

To make the copy-before-mutate behaviour observable we run the three
statements over an explicit heap of dict objects; an address is an index. -/

/-- A Python dict with string keys and values, as an association list in
insertion order. -/
abbrev PyDict := List (String × String)

/-- `d[k] = v`: update in place if the key exists, else append. -/
def dictSet (d : PyDict) (k v : String) : PyDict :=
  if d.any (fun p => p.1 == k) then
    d.map (fun p => if p.1 == k then (k, v) else p)
  else
    d ++ [(k, v)]

/-- Heap of dict objects; an address is a list index. -/
abbrev Heap := List PyDict

def heapAlloc (h : Heap) (d : PyDict) : Heap × Nat :=
  (h ++ [d], h.length)

def heapWrite (h : Heap) (a : Nat) (d : PyDict) : Heap :=
  h.set a d

def heapRead (h : Heap) (a : Nat) : PyDict :=
  h.getD a []

/-- The heap after lines 89-94 ran, with the addresses of the secrets
module's dict object and of this module's final `kwargs` object. -/
structure InitResult where
  heap : Heap
  secretsAddr : Nat
  kwargsAddr : Nat
deriving Repr

/-- Lines 89-94.  `kwargs = getattr(secrets, 'GCE_KEYWORD_PARAMS', {})`
aliases the dict object owned by `secrets`; `kwargs = kwargs.copy()`
allocates a fresh object with the same entries and rebinds the local name;
`kwargs['datacenter'] = DATACENTER` mutates only the fresh object. -/
def moduleInit (secretsKwargs : PyDict) : InitResult :=
  let a0 := heapAlloc [] secretsKwargs
  let h0 := a0.1
  let secretsAddr := a0.2
  let kwargsRef := secretsAddr
  let a1 := heapAlloc h0 (heapRead h0 kwargsRef)
  let h1 := a1.1
  let copyAddr := a1.2
  let kwargsRef1 := copyAddr
  let h2 := heapWrite h1 kwargsRef1
    (dictSet (heapRead h1 kwargsRef1) "datacenter" DATACENTER)
  ⟨h2, secretsAddr, kwargsRef1⟩

/-! ### The secrets import guard (lines 44-53) -/

/-- The message printed when `import secrets` fails (lines 47-52). -/
def secretsMissingMessage : String :=
  "\"demos/secrets.py\" not found.\n\n" ++
  "Please copy secrets.py-dist to secrets.py and update the GCE* " ++
  "values with appropriate authentication information.\n" ++
  "Additional information about setting these values can be found " ++
  "in the docstring for:\n" ++
  "libcloud/common/google.py\n"

/-- Outcome of loading the script. -/
inductive LoadOutcome where
  | exited (status : Nat) (printed : List String)
  | loaded
deriving DecidableEq, Repr

/-- Lines 44-53: if `import secrets` raises ImportError, the guard prints the
explanatory message and calls `sys.exit(1)`, so nothing after line 53 (and in
particular no driver construction and no scenario code) runs; otherwise the
rest of the module body runs. -/
def loadModule (secretsImportable : Bool) : LoadOutcome :=
  if secretsImportable then
    .loaded
  else
    .exited 1 [secretsMissingMessage]

/-- A resource is fatal for the cleanup loop when its name has the prefix
(so `destroy()` is invoked) and the call raises something other than
`ResourceNotFoundError` (so line 189 re-raises). -/
def resourceFatal (base_name : String) (r : Resource) : Bool :=
  pyStartsWith r.name base_name &&
    (match r.destroyBehavior with
     | none => false
     | some .resourceNotFound => false
     | some _ => true)

/-! ### Helper lemmas about the cleanup resource loop -/

lemma cleanUpResources_calls_prefixed (b : String) (l : List Resource) :
    ((cleanUpResources b l).1.all (fun r => pyStartsWith r.name b)) = true := by
  induction l with
  | nil => rfl
  | cons r rest ih =>
    by_cases h : pyStartsWith r.name b
    · cases hb : r.destroyBehavior with
      | none => simp [cleanUpResources, h, hb, ih]
      | some e =>
        cases e with
        | resourceNotFound => simp [cleanUpResources, h, hb, ih]
        | nameError s => simp [cleanUpResources, h, hb]
        | other s => simp [cleanUpResources, h, hb]
    · simp [cleanUpResources, h, ih]

lemma cleanUpResources_append (b : String) (pre l : List Resource)
    (hpre : pre.all (fun x => !resourceFatal b x) = true) :
    cleanUpResources b (pre ++ l) =
      ((cleanUpResources b pre).1 ++ (cleanUpResources b l).1,
       (cleanUpResources b pre).2.1 ++ (cleanUpResources b l).2.1,
       (cleanUpResources b l).2.2) := by
  induction pre with
  | nil => simp [cleanUpResources]
  | cons r rest ih =>
    simp only [List.all_cons, Bool.and_eq_true] at hpre
    obtain ⟨hr, hrest⟩ := hpre
    rw [Bool.not_eq_true'] at hr
    by_cases h : pyStartsWith r.name b
    · cases hb : r.destroyBehavior with
      | none =>
        simp [cleanUpResources, h, hb, ih hrest, List.append_assoc]
      | some e =>
        cases e with
        | resourceNotFound =>
          simp [cleanUpResources, h, hb, ih hrest, List.append_assoc]
        | nameError s =>
          exfalso
          simp [resourceFatal, h, hb] at hr
        | other s =>
          exfalso
          simp [resourceFatal, h, hb] at hr
    · simp [cleanUpResources, h, ih hrest]

/-! ### Claim theorems -/

/-- C1: for every `clean_up` call, the only nodes handed to
`ex_destroy_multiple_nodes` and the only resources on which `.destroy()` is
invoked are those whose name starts with `base_name`; every node or resource
whose name lacks the prefix is left untouched. -/
theorem clean_up_touches_only_prefixed (base_name : String)
    (nodes : List Node) (resources : List Resource) :
    ((clean_up base_name (some nodes) (some resources)).nodesRequested.all
      (fun n => pyStartsWith n.name base_name)) = true ∧
    ((clean_up base_name (some nodes) (some resources)).destroyCalls.all
      (fun r => pyStartsWith r.name base_name)) = true := by
  constructor
  · simp only [clean_up, List.all_eq_true]
    intro n hn
    exact (List.mem_filter.mp hn).2
  · simpa [clean_up] using cleanUpResources_calls_prefixed base_name resources

/-- C2: when a prefixed resource's `destroy()` raises
`ResourceNotFoundError`, `clean_up` swallows it, prints the informational
"Not found" line, still processes every remaining resource, and the raised
outcome is exactly that of the remaining resources (in particular `none` when
nothing fatal remains). -/
theorem clean_up_swallows_not_found (base_name : String) (nodes : List Node)
    (pre : List Resource) (r : Resource) (rest : List Resource)
    (hpre : pre.all (fun x => !resourceFatal base_name x) = true)
    (hname : pyStartsWith r.name base_name = true)
    (hbeh : r.destroyBehavior = some PyExc.resourceNotFound) :
    (clean_up base_name (some nodes) (some (pre ++ r :: rest)) =
      ⟨nodes.filter (fun n => pyStartsWith n.name base_name),
       (cleanUpResources base_name pre).1 ++
         r :: (cleanUpResources base_name rest).1,
       ((nodes.filter (fun n => pyStartsWith n.name base_name)).map
           nodeResultLines).flatten ++
         ((cleanUpResources base_name pre).2.1 ++
          (displayTitleOnly
            ("   Not found: " ++ r.name ++ "(" ++ r.className ++ ")") ++
           (cleanUpResources base_name rest).2.1)),
       (cleanUpResources base_name rest).2.2⟩) ∧
    (rest.all (fun x => !resourceFatal base_name x) = true →
      (clean_up base_name (some nodes) (some (pre ++ r :: rest))).raised
        = none) := by
  have happ := cleanUpResources_append base_name pre (r :: rest) hpre
  have hstep : cleanUpResources base_name (r :: rest) =
      (r :: (cleanUpResources base_name rest).1,
       displayTitleOnly
         ("   Not found: " ++ r.name ++ "(" ++ r.className ++ ")") ++
         (cleanUpResources base_name rest).2.1,
       (cleanUpResources base_name rest).2.2) := by
    simp [cleanUpResources, hname, hbeh]
  constructor
  · simp [clean_up, happ, hstep, List.append_assoc]
  · intro hrest
    have hnone : (cleanUpResources base_name rest).2.2 = none := by
      have h0 := cleanUpResources_append base_name rest [] hrest
      simp only [List.append_nil] at h0
      rw [h0]
      rfl
    simp [clean_up, happ, hstep, hnone]

/-- Witness for C2 at a concrete input: one non-prefixed resource whose
destroy would fail is skipped, the not-found resource is swallowed, and the
remaining prefixed resource keeps `clean_up` from raising. -/
theorem clean_up_swallows_not_found_witness :
    ([(⟨"other-vol", "GCEVolume", some (PyExc.other "ValueError")⟩ :
        Resource)].all (fun x => !resourceFatal "lct" x) = true) ∧
    (pyStartsWith "lct-snap" "lct" = true) ∧
    ((clean_up "lct" (some [⟨"lct-node", true⟩])
        (some ([⟨"other-vol", "GCEVolume", some (PyExc.other "ValueError")⟩] ++
          (⟨"lct-snap", "GCESnapshot", some PyExc.resourceNotFound⟩ : Resource) ::
          [⟨"lct-fw", "GCEFirewall", none⟩]))).raised = none) := by
  refine ⟨by decide, by decide, ?_⟩
  have h := clean_up_swallows_not_found "lct" [⟨"lct-node", true⟩]
    [⟨"other-vol", "GCEVolume", some (PyExc.other "ValueError")⟩]
    ⟨"lct-snap", "GCESnapshot", some PyExc.resourceNotFound⟩
    [⟨"lct-fw", "GCEFirewall", none⟩]
    (by decide) (by decide) rfl
  exact h.2 (by decide)

/-- C3: when a prefixed resource's `destroy()` raises anything other than
`ResourceNotFoundError`, `clean_up` prints the failure line, re-raises the
same exception, and no later resource in the list is processed: the destroy
calls stop at that resource. -/
theorem clean_up_reraises_other (base_name : String) (nodes : List Node)
    (pre : List Resource) (r : Resource) (rest : List Resource) (exc : PyExc)
    (hpre : pre.all (fun x => !resourceFatal base_name x) = true)
    (hname : pyStartsWith r.name base_name = true)
    (hbeh : r.destroyBehavior = some exc)
    (hexc : exc ≠ PyExc.resourceNotFound) :
    clean_up base_name (some nodes) (some (pre ++ r :: rest)) =
      ⟨nodes.filter (fun n => pyStartsWith n.name base_name),
       (cleanUpResources base_name pre).1 ++ [r],
       ((nodes.filter (fun n => pyStartsWith n.name base_name)).map
           nodeResultLines).flatten ++
         ((cleanUpResources base_name pre).2.1 ++
          displayTitleOnly
            ("   Failed to Delete " ++ r.name ++ "(" ++ r.className ++ ")")),
       some exc⟩ := by
  have happ := cleanUpResources_append base_name pre (r :: rest) hpre
  have hstep : cleanUpResources base_name (r :: rest) =
      ([r],
       displayTitleOnly
         ("   Failed to Delete " ++ r.name ++ "(" ++ r.className ++ ")"),
       some exc) := by
    cases exc with
    | resourceNotFound => exact absurd rfl hexc
    | nameError s => simp [cleanUpResources, hname, hbeh]
    | other s => simp [cleanUpResources, hname, hbeh]
  simp [clean_up, happ, hstep, List.append_assoc]

/-- Witness for C3 at a concrete input: an earlier prefixed resource is
destroyed, then a prefixed resource whose destroy raises a non-not-found
error aborts the loop, so the final resource is never touched. -/
theorem clean_up_reraises_other_witness :
    ([(⟨"lct-ok", "GCEAddress", none⟩ : Resource)].all
        (fun x => !resourceFatal "lct" x) = true) ∧
    (pyStartsWith "lct-net" "lct" = true) ∧
    (PyExc.other "GoogleBaseError" ≠ PyExc.resourceNotFound) ∧
    ((clean_up "lct" (some [])
        (some ([⟨"lct-ok", "GCEAddress", none⟩] ++
          (⟨"lct-net", "GCENetwork", some (PyExc.other "GoogleBaseError")⟩ :
            Resource) ::
          [⟨"lct-addr", "GCEAddress", none⟩]))).raised
      = some (PyExc.other "GoogleBaseError")) ∧
    ((clean_up "lct" (some [])
        (some ([⟨"lct-ok", "GCEAddress", none⟩] ++
          (⟨"lct-net", "GCENetwork", some (PyExc.other "GoogleBaseError")⟩ :
            Resource) ::
          [⟨"lct-addr", "GCEAddress", none⟩]))).destroyCalls
      = [⟨"lct-ok", "GCEAddress", none⟩,
         ⟨"lct-net", "GCENetwork", some (PyExc.other "GoogleBaseError")⟩]) := by
  have h := clean_up_reraises_other "lct" []
    [⟨"lct-ok", "GCEAddress", none⟩]
    ⟨"lct-net", "GCENetwork", some (PyExc.other "GoogleBaseError")⟩
    [⟨"lct-addr", "GCEAddress", none⟩]
    (PyExc.other "GoogleBaseError")
    (by decide) (by decide) rfl (by decide)
  refine ⟨by decide, by decide, by decide, ?_, ?_⟩
  · rw [h]
  · rw [h]
    decide

/-- C4: executing the script as the main program does not consult
`WHICH_TESTS`: line 552 reads the identifier `WHAT_TESTS`, which is not bound
in the module globals (only `WHICH_TESTS` is), so the entry point raises
`NameError` instead of gating on the mapping. -/
theorem main_block_gate_name_error :
    runMainBlock = Except.error (PyExc.nameError "WHAT_TESTS") ∧
    moduleGlobalNames.contains "WHICH_TESTS" = true ∧
    moduleGlobalNames.contains "WHAT_TESTS" = false := by
  refine ⟨rfl, by decide, by decide⟩

/-- C5: after the module body runs, the second `def main_compute`
(line 544) has rebound the name, so `main_compute` denotes the DNS project
lookup, not the compute lifecycle, and no `main_dns` exists. -/
theorem main_compute_rebound_to_dns :
    lookupFunction "main_compute" = some ProcBody.dnsProjectLookup ∧
    lookupFunction "main_compute" ≠ some ProcBody.computeLifecycle ∧
    lookupFunction "main_load_balancer"
      = some ProcBody.loadBalancerLifecycle ∧
    lookupFunction "main_dns" = none := by
  decide

/-- C6: `display` raises `NameError` (identifier `use_preifx`, line 141) as
soon as an item's name starts with `DEMO_BASE_NAME`, after printing only the
title line; with no prefixed item it prints the title and one line per item
and returns normally. -/
theorem display_name_error_on_prefixed :
    display "Nodes" [⟨"lct-node", "Node", none⟩] true
      = (["=> Nodes:"], some (PyExc.nameError "use_preifx")) ∧
    display "Nodes" [⟨"prod-node", "Node", none⟩] true
      = (["=> Nodes:", "        prod-node"], none) ∧
    resolvesInDisplay "use_preifx" = false := by
  decide

/-- C7: with every external driver call succeeding, `main_load_balancer`
performs the documented operations in order up to reattaching the member, and
then raises `NameError` at `time.sleep(10)` (line 511, `time` is never
imported) instead of completing the probe and cleanup. -/
theorem main_load_balancer_aborts_at_probe :
    main_load_balancer =
      ([LBOp.listBalancers, .listProtocols, .exListHealthchecks,
        .listNodesAllZones, .exListFirewalls, .cleanUpCall,
        .exGetImage, .exGetSize, .exCreateMultipleNodes,
        .exCreateFirewall, .exCreateHealthcheck, .createBalancer,
        .attachComputeNode, .listMembers, .detachMember, .listMembers,
        .attachMember],
       some (PyExc.nameError "time")) := by
  rfl

/-- C8: driver acquisition follows the provider-lookup plus
credential-injection pattern: the compute driver always carries the stored
credentials, and the load-balancer and DNS drivers come from the supplied
compute driver when one is given and from the same stored credentials
otherwise. -/
theorem driver_acquisition_pattern (args : List String)
    (kwargs : List (String × String)) (d : ComputeDriver) :
    (get_gce_driver args kwargs).args = args ∧
    (get_gce_driver args kwargs).kwargs = kwargs ∧
    get_gcelb_driver args kwargs (some d)
      = DriverSource.fromComputeDriver d ∧
    get_gcelb_driver args kwargs none
      = DriverSource.fromCreds (get_gce_driver args kwargs).args
          (get_gce_driver args kwargs).kwargs ∧
    get_dns_driver args kwargs (some d)
      = DriverSource.fromComputeDriver d ∧
    get_dns_driver args kwargs none
      = DriverSource.fromCreds (get_gce_driver args kwargs).args
          (get_gce_driver args kwargs).kwargs :=
  ⟨rfl, rfl, rfl, rfl, rfl, rfl⟩

/-- C9: module initialisation copies the secrets keyword-parameter dict
before injecting the datacenter entry: after lines 89-94 the secrets module's
dict object is unchanged, the module's `kwargs` is a distinct object, and
only the latter has the `datacenter` entry. -/
theorem moduleInit_preserves_secrets_dict (d : PyDict) :
    heapRead (moduleInit d).heap (moduleInit d).secretsAddr = d ∧
    (moduleInit d).secretsAddr ≠ (moduleInit d).kwargsAddr ∧
    heapRead (moduleInit d).heap (moduleInit d).kwargsAddr
      = dictSet d "datacenter" DATACENTER :=
  ⟨rfl, Nat.zero_ne_one, rfl⟩

/-- C10: when the secrets module cannot be imported, loading the script
prints the explanatory message and exits with status 1; the module body never
reaches driver construction or any scenario code. -/
theorem import_guard_exits :
    loadModule false = LoadOutcome.exited 1 [secretsMissingMessage] ∧
    loadModule false ≠ LoadOutcome.loaded := by
  refine ⟨rfl, ?_⟩
  intro h
  exact LoadOutcome.noConfusion h

end GCEDemo
